import Mathlib

/-!
Shallow embedding of the mvvm viewbinding layer
(`mvvm/viewbinding/interactive.py`, `mvvm/viewbinding/display.py`,
`mvvm/viewbinding/grid2.py`).

Conventions of the embedding:
* A binding's observable world is captured by a small state structure
  holding the widget's displayed value, the model attribute's value, and
  explicit logs of the write operations performed (`modelWrites` for
  `setattr` calls on the model, `viewWrites` for value-setting calls on
  the widget).  A guarded write in the Python code appends to the log
  only when it actually executes, so "performs no write" is literally
  "the log is unchanged".
* Widget reads (`GetValue`, `GetSelection`, `event.GetPath()`, ...)
  become fields of the state or explicit parameters.
* wx toolkit behaviour that the repository only consumes (for example
  what `SetItems` does to the current selection of a choice control) is
  parametrised rather than hard-coded, since it is outside the
  repository.
* Model attribute values are concretised at `String` (text, check,
  choice, label, file) or `Int` (slider, timestamps for dates); the
  control flow being embedded never depends on the value type.
-/

/-- State of a `TextBinding` (interactive.py lines 137-154): a wx text
control's current string (`field.GetValue()`), the model attribute
(`getattr(instance, trait)`), and logs of the `setattr` /
`field.SetValue` calls performed. -/
structure TextState where
  widget : String
  model : String
  modelWrites : List String
  viewWrites : List String
deriving Repr, DecidableEq

/-- `TextBinding.update_view` (interactive.py lines 146-148): writes the
new value into the widget only when `field.GetValue() != new`; the
written string is Python's `new and unicode(new) or ''` (the empty
string is falsy, every other string is truthy). -/
def TextBinding.update_view (s : TextState) (new : String) : TextState :=
  if s.widget ≠ new then
    let v := if new ≠ "" then new else ""
    { s with widget := v, viewWrites := s.viewWrites ++ [v] }
  else s

/-- `TextBinding.update_model` (interactive.py lines 150-154): reads the
widget value and writes it to the model attribute only on inequality. -/
def TextBinding.update_model (s : TextState) : TextState :=
  let value := s.widget
  if s.model ≠ value then
    { s with model := value, modelWrites := s.modelWrites ++ [value] }
  else s

/-- `TextBinding.__init__` (interactive.py lines 138-144): after
subscribing, immediately pushes the current model value to the widget
via `update_view(getattr(instance, trait))`.  Subscription and event
binding have no effect on the embedded state. -/
def TextBinding.init (s : TextState) : TextState :=
  TextBinding.update_view s s.model

/-- State of a `CheckBinding` (interactive.py lines 8-26): a wx checkbox
boolean, the two-element `values` mapping (index `False` / index `True`),
the model attribute and the write logs. -/
structure CheckState where
  widget : Bool
  values : String × String
  model : String
  modelWrites : List String
  viewWrites : List Bool
deriving Repr, DecidableEq

/-- `CheckBinding.update_view` (interactive.py lines 19-20):
`field.SetValue(new == self.values[1])`, applied unconditionally. -/
def CheckBinding.update_view (s : CheckState) (new : String) : CheckState :=
  let v := new == s.values.2
  { s with widget := v, viewWrites := s.viewWrites ++ [v] }

/-- `CheckBinding.update_model` (interactive.py lines 22-26): maps the
checkbox boolean through `values` and writes to the model only on
inequality. -/
def CheckBinding.update_model (s : CheckState) : CheckState :=
  let value := if s.widget then s.values.2 else s.values.1
  if s.model ≠ value then
    { s with model := value, modelWrites := s.modelWrites ++ [value] }
  else s

/-- `CheckBinding.__init__` (interactive.py lines 9-17): subscribes and
immediately calls `update_view(getattr(instance, trait))`. -/
def CheckBinding.init (s : CheckState) : CheckState :=
  CheckBinding.update_view s s.model

/-- State of a `SliderBinding` (interactive.py lines 157-174): integer
widget position, integer model attribute, write logs. -/
structure SliderState where
  widget : Int
  model : Int
  modelWrites : List Int
  viewWrites : List Int
deriving Repr, DecidableEq

/-- `SliderBinding.update_view` (interactive.py lines 166-168): sets the
widget only when `field.GetValue() != new`. -/
def SliderBinding.update_view (s : SliderState) (new : Int) : SliderState :=
  if s.widget ≠ new then
    { s with widget := new, viewWrites := s.viewWrites ++ [new] }
  else s

/-- `SliderBinding.update_model` (interactive.py lines 170-174): writes
the widget value to the model only on inequality. -/
def SliderBinding.update_model (s : SliderState) : SliderState :=
  let value := s.widget
  if s.model ≠ value then
    { s with model := value, modelWrites := s.modelWrites ++ [value] }
  else s

/-- `SliderBinding.__init__` (interactive.py lines 158-164): subscribes
and immediately calls `update_view(getattr(instance, trait))`. -/
def SliderBinding.init (s : SliderState) : SliderState :=
  SliderBinding.update_view s s.model

/-- State of a `DateTimeBinding`'s `update_model` path (interactive.py
lines 192-196): the widget's parsed date-time (`GetDateTimeValue()`,
embedded as a timestamp), the widget validity flag (`field.IsValid()`),
the model attribute and the model write log. -/
structure DateTimeState where
  widget : Int
  isValid : Bool
  model : Int
  modelWrites : List Int
deriving Repr, DecidableEq

/-- `DateTimeBinding.update_model` (interactive.py lines 192-196):
writes the widget's date-time to the model only when the widget content
is valid and differs from the model value. -/
def DateTimeBinding.update_model (s : DateTimeState) : DateTimeState :=
  let value := s.widget
  if s.isValid = true ∧ s.model ≠ value then
    { s with model := value, modelWrites := s.modelWrites ++ [value] }
  else s

/-- State of a `DateBinding` (interactive.py lines 199-222): the date
spinner's displayed value as a timestamp, the model attribute which may
be null (`none`), and the write logs. -/
structure DateState where
  widget : Int
  model : Option Int
  modelWrites : List Int
  viewWrites : List Int
deriving Repr, DecidableEq

/-- `DateBinding.update_view` (interactive.py lines 212-215): converts
the date to the wx representation (embedded as the identity on
timestamps) and sets the widget only on inequality. -/
def DateBinding.update_view (s : DateState) (new : Int) : DateState :=
  if s.widget ≠ new then
    { s with widget := new, viewWrites := s.viewWrites ++ [new] }
  else s

/-- `DateBinding.update_model` (interactive.py lines 217-222): reads the
widget's date and writes it to the model only on inequality (a null
model attribute is never equal to a date value). -/
def DateBinding.update_model (s : DateState) : DateState :=
  let value := s.widget
  if s.model ≠ some value then
    { s with model := some value, modelWrites := s.modelWrites ++ [value] }
  else s

/-- `DateBinding.__init__` (interactive.py lines 200-210): computes
`value = getattr(self.instance, self.trait) or datetime.datetime.now()`
(Python `or`: `None` is falsy, every date is truthy), pushes it to the
widget with `update_view(value)`, then unconditionally writes it back
with `setattr`.  `now` is the clock reading, passed as a parameter. -/
def DateBinding.init (now : Int) (s : DateState) : DateState :=
  let value := s.model.getD now
  let s1 := DateBinding.update_view s value
  { s1 with model := some value, modelWrites := s1.modelWrites ++ [value] }

/-- State of a `FileBinding` (interactive.py lines 225-231): the file
picker's current path (`event.GetPath()` reports it on a change event),
the model attribute and the model write log. -/
structure FileState where
  widget : String
  model : String
  modelWrites : List String
deriving Repr, DecidableEq

/-- `FileBinding.update_model` (interactive.py lines 230-231):
`setattr(self.instance, self.trait, event.GetPath())` — an unconditional
write, with no equality guard. -/
def FileBinding.update_model (s : FileState) (path : String) : FileState :=
  { s with model := path, modelWrites := s.modelWrites ++ [path] }

/-- `FileBinding.__init__` (interactive.py lines 226-228): stores the
references and binds `EVT_FILEPICKER_CHANGED`; it performs no read of
the model and no write to the widget, so the embedded state is
unchanged. -/
def FileBinding.init (s : FileState) : FileState := s

/-- State of a `LabelBinding` (display.py lines 101-109): the label's
displayed text, the model attribute (already rendered through `str`, so
embedded as the string itself), and the widget write log. -/
structure LabelState where
  widget : String
  model : String
  viewWrites : List String
deriving Repr, DecidableEq

/-- `LabelBinding.update_view` (display.py lines 108-109):
`field.SetLabel(str(getattr(...)))`, applied unconditionally. -/
def LabelBinding.update_view (s : LabelState) : LabelState :=
  { s with widget := s.model, viewWrites := s.viewWrites ++ [s.model] }

/-- `LabelBinding.__init__` (display.py lines 102-106): subscribes and
immediately calls `update_view()`. -/
def LabelBinding.init (s : LabelState) : LabelState :=
  LabelBinding.update_view s

/-- Python's `list.index`: the index of the first occurrence, `none`
standing for the `ValueError` raised when the element is absent. -/
def pyListIndex (a : String) : List String → Option Nat
  | [] => none
  | b :: t => if b = a then some 0 else (pyListIndex a t).map (· + 1)

/-- State of a `ChoiceBinding` (interactive.py lines 29-83): the ordered
key-to-display-text choice set (`self.choices`, an ordered dict embedded
as an association list), the widget's item list, the widget's selection
index (`-1` is wx for no selection), the model attribute and the model
write log. -/
structure ChoiceState where
  choices : List (String × String)
  items : List String
  selection : Int
  model : String
  modelWrites : List String
deriving Repr, DecidableEq

/-- `self.choices.keys()` of a `ChoiceBinding`. -/
def ChoiceBinding.keys (choices : List (String × String)) : List String :=
  choices.map Prod.fst

/-- `self.choices.values()` of a `ChoiceBinding`. -/
def ChoiceBinding.vals (choices : List (String × String)) : List String :=
  choices.map Prod.snd

/-- `ChoiceBinding.update_choices` (interactive.py lines 59-70), non
`RadioBox` branch: `field.SetItems(self.choices.values())`.  What
`SetItems` does to the control's current selection is toolkit behaviour
outside this repository, so the post-rebuild selection `selAfter` is a
parameter. -/
def ChoiceBinding.update_choices (s : ChoiceState) (selAfter : Int) : ChoiceState :=
  { s with items := ChoiceBinding.vals s.choices, selection := selAfter }

/-- `ChoiceBinding.update_view` (interactive.py lines 72-76): returns
immediately when the choice set is empty; otherwise sets the selection
to `self.choices.keys().index(new)`, and the `ValueError` raised when
`new` is absent is swallowed by `except ValueError: pass`, leaving the
prior selection untouched. -/
def ChoiceBinding.update_view (s : ChoiceState) (new : String) : ChoiceState :=
  if s.choices.length = 0 then s
  else
    match pyListIndex new (ChoiceBinding.keys s.choices) with
    | some i => { s with selection := (i : Int) }
    | none => s

/-- `ChoiceBinding.update_model` (interactive.py lines 78-83): when the
widget's selection index is in range for the current keys, maps it back
to a key and writes it to the model only on inequality; otherwise does
nothing. -/
def ChoiceBinding.update_model (s : ChoiceState) : ChoiceState :=
  if 0 ≤ s.selection ∧ s.selection < ((ChoiceBinding.keys s.choices).length : Int) then
    let value := (ChoiceBinding.keys s.choices).getD s.selection.toNat ""
    if s.model ≠ value then
      { s with model := value, modelWrites := s.modelWrites ++ [value] }
    else s
  else s

/-- `ChoiceBinding.__init__` (interactive.py lines 30-57), static-choices
branch: stores the choice set, calls `update_choices()`, then
`update_view(new=getattr(instance, trait))`, then `update_model(None)`.
`selAfter` is the widget selection left by `SetItems` (toolkit
behaviour, parametrised). -/
def ChoiceBinding.init_static (choices : List (String × String)) (s : ChoiceState)
    (selAfter : Int) : ChoiceState :=
  let s1 := ChoiceBinding.update_choices { s with choices := choices } selAfter
  let s2 := ChoiceBinding.update_view s1 s1.model
  ChoiceBinding.update_model s2

/-- The closure `update_choices` defined inside `ChoiceBinding.__init__`
for dynamic choices (interactive.py lines 36-42): when the source
attribute changes, the handler stores the new choice set
(`self.choices = getattr(choices[0], choices[1])`) and calls
`self.update_choices()`, which rebuilds the widget item list.  The
handler body contains no call to `update_view` or `update_model`. -/
def ChoiceBinding.on_choices_changed (s : ChoiceState)
    (newChoices : List (String × String)) (selAfter : Int) : ChoiceState :=
  ChoiceBinding.update_choices { s with choices := newChoices } selAfter

/-- Cursor and edit-control state of a `GridBinding` (grid2.py): the
grid cursor (`GetGridCursorRow` and `GetGridCursorCol` are embedded as the
two cursor fields), whether a native cell edit control is open
(`IsCellEditControlEnabled`), and the `veto_next_select_cell` flag. -/
structure GridState where
  cursorRow : Nat
  cursorCol : Nat
  editEnabled : Bool
  vetoNext : Bool
deriving Repr, DecidableEq

/-- Outcome of one `EVT_GRID_SELECT_CELL` dispatch: the grid state after
the handler plus the toolkit's default processing (`evt.Skip()` lets the
cursor move to the event's target cell, `evt.Veto()` cancels the move),
the `SaveRow` / `SaveCol` / `SaveCell` calls performed, whether the
event was vetoed, and a pending `wx.CallAfter(do_select_cell, ...)`
target when one was scheduled. -/
structure SelectOutcome where
  state : GridState
  saveRowCalls : List Nat
  saveColCalls : List Nat
  saveCellCalls : List (Nat × Nat)
  vetoed : Bool
  deferred : Option (Nat × Nat)
deriving Repr, DecidableEq

/-- `GridBinding.on_select_cell` (grid2.py lines 80-111).  `commitOn` is
`self.commit_on`; `saveCell` / `saveRow` / `saveCol` are the table
adapter's save operations (external contract, success as `Bool`).  For
`commit_on == 'grid'` the handler just skips; with an open edit control
it disables the control, defers `do_select_cell` to the target cell and
vetoes; otherwise the matching commit granularity saves before the move
and vetoes on failure. -/
def GridBinding.on_select_cell (commitOn : String)
    (saveCell : Nat → Nat → Bool) (saveRow : Nat → Bool) (saveCol : Nat → Bool)
    (s : GridState) (toRow toCol : Nat) : SelectOutcome :=
  if commitOn = "grid" then
    ⟨{ s with cursorRow := toRow, cursorCol := toCol }, [], [], [], false, none⟩
  else if s.editEnabled then
    ⟨{ s with editEnabled := false }, [], [], [], true, some (toRow, toCol)⟩
  else if commitOn = "cell" ∧ (s.cursorRow, s.cursorCol) ≠ (toRow, toCol) then
    if saveCell s.cursorRow s.cursorCol then
      ⟨{ s with cursorRow := toRow, cursorCol := toCol }, [], [],
        [(s.cursorRow, s.cursorCol)], false, none⟩
    else ⟨s, [], [], [(s.cursorRow, s.cursorCol)], true, none⟩
  else if commitOn = "row" ∧ s.cursorRow ≠ toRow then
    if saveRow s.cursorRow then
      ⟨{ s with cursorRow := toRow, cursorCol := toCol }, [s.cursorRow], [], [], false, none⟩
    else ⟨s, [s.cursorRow], [], [], true, none⟩
  else if commitOn = "col" ∧ s.cursorCol ≠ toCol then
    if saveCol s.cursorCol then
      ⟨{ s with cursorRow := toRow, cursorCol := toCol }, [], [s.cursorCol], [], false, none⟩
    else ⟨s, [], [s.cursorCol], [], true, none⟩
  else
    ⟨{ s with cursorRow := toRow, cursorCol := toCol }, [], [], [], false, none⟩

/-- `GridBinding.do_select_cell` (grid2.py lines 71-78): unless
`veto_next_select_cell` is set, `SetGridCursor(row, col)` — which makes
the grid fire `EVT_GRID_SELECT_CELL` again, re-entering
`on_select_cell`; the flag is then cleared. -/
def GridBinding.do_select_cell (commitOn : String)
    (saveCell : Nat → Nat → Bool) (saveRow : Nat → Bool) (saveCol : Nat → Bool)
    (s : GridState) (row col : Nat) : SelectOutcome :=
  if s.vetoNext then
    ⟨{ s with vetoNext := false }, [], [], [], false, none⟩
  else
    let r := GridBinding.on_select_cell commitOn saveCell saveRow saveCol s row col
    ⟨{ r.state with vetoNext := false }, r.saveRowCalls, r.saveColCalls,
      r.saveCellCalls, r.vetoed, r.deferred⟩

/-- One complete cursor-move gesture: the `EVT_GRID_SELECT_CELL`
dispatch for the target cell, followed by the deferred
`do_select_cell` that `wx.CallAfter` scheduled when an edit control had
to be closed first.  Call logs of both phases are concatenated. -/
def GridBinding.select_gesture (commitOn : String)
    (saveCell : Nat → Nat → Bool) (saveRow : Nat → Bool) (saveCol : Nat → Bool)
    (s : GridState) (toRow toCol : Nat) : SelectOutcome :=
  let r1 := GridBinding.on_select_cell commitOn saveCell saveRow saveCol s toRow toCol
  match r1.deferred with
  | none => r1
  | some rc =>
    let r2 := GridBinding.do_select_cell commitOn saveCell saveRow saveCol r1.state rc.1 rc.2
    ⟨r2.state, r1.saveRowCalls ++ r2.saveRowCalls, r1.saveColCalls ++ r2.saveColCalls,
      r1.saveCellCalls ++ r2.saveCellCalls, r2.vetoed, r2.deferred⟩

/-- The `WXK_NUMPAD_ENTER` / `WXK_RETURN` branch of
`GridBinding.on_key_down` (grid2.py lines 129-144): disables the cell
edit control first, then, when the cursor is on the last row
(`GridCursorRow == GetNumberRows() - 1`), calls `self.table.CreateRow()`
(the table contract's `create_row` appends one row), and finally
`SetGridCursor(GridCursorRow + 1, 0)`.  `SetGridCursor` makes the grid
fire a vetoable `EVT_GRID_SELECT_CELL` — re-entering `on_select_cell`,
where the pending commit of the departed row or cell can veto the move,
exactly the re-entry the comment at grid2.py lines 63-66 documents — so
the cursor move is embedded as the select-cell gesture for the target
cell, not as a plain assignment.  `numRows` is the table row count
(`self.table.GetNumberRows()`); the result pairs the select outcome
with the row count after the branch. -/
def GridBinding.on_key_down_return (commitOn : String)
    (saveCell : Nat → Nat → Bool) (saveRow : Nat → Bool) (saveCol : Nat → Bool)
    (s : GridState) (numRows : Nat) : SelectOutcome × Nat :=
  let s1 := { s with editEnabled := false }
  let numRows1 := if s1.cursorRow = numRows - 1 then numRows + 1 else numRows
  (GridBinding.select_gesture commitOn saveCell saveRow saveCol s1 (s1.cursorRow + 1) 0,
    numRows1)

/-- Outcome of `ListBinding.on_selection_update_model`: the index sets
passed to the deselect loop and the select loop, and the widget's
selection set after both loops ran. -/
structure ListSelOutcome where
  deselected : Finset ℕ
  selected : Finset ℕ
  widgetSelection : Finset ℕ
deriving DecidableEq

/-- `ListBinding.on_selection_update_model` (display.py lines 92-98):
`cur` is `get_selected_indexes()` (the widget's currently selected
indices), `tgt` the set of row indices of the model's new selection
(`GetRowIndex` applied to each object).  The handler deselects the
indices in `cur - tgt` and selects the indices in `tgt - cur`; the
resulting widget selection drops exactly the deselected indices and
gains exactly the selected ones. -/
def ListBinding.on_selection_update_model (cur tgt : Finset ℕ) : ListSelOutcome :=
  let toDeselect := cur \ tgt
  let toSelect := tgt \ cur
  ⟨toDeselect, toSelect, (cur \ toDeselect) ∪ toSelect⟩

/-! Helper lemmas shared by the claim theorems. -/

theorem pyListIndex_eq_none (a : String) (l : List String) (h : a ∉ l) :
    pyListIndex a l = none := by
  induction l with
  | nil => rfl
  | cons b t ih =>
    simp only [List.mem_cons, not_or] at h
    simp only [pyListIndex]
    rw [if_neg (fun hb => h.1 hb.symm), ih h.2]
    rfl

theorem ChoiceBinding.update_view_model (s : ChoiceState) (new : String) :
    (ChoiceBinding.update_view s new).model = s.model := by
  unfold ChoiceBinding.update_view
  split
  · rfl
  · split <;> rfl

/-! Claim theorems. -/

/-- Claim C1, counterexample.  The claim says every scalar binding skips
the model write when the widget value already equals the model value;
the file binding (interactive.py lines 230-231) has no equality guard:
with the picker path and the model attribute both equal to the string a,
`update_model` still performs a `setattr` (the model write log grows). -/
theorem C1_counterexample :
    (FileBinding.update_model { widget := "a", model := "a", modelWrites := [] }
      "a").modelWrites ≠ [] := by decide

/-- Claim C1, amended: for the check, text, slider, date-time and date
bindings, `update_model` is a no-op (no model write, state unchanged)
whenever the widget value already equals the model value; the file
binding instead writes the picked path unconditionally, though when the
path equals the model value the attribute value is unchanged. -/
theorem C1_no_redundant_model_write :
    (∀ s : TextState, s.widget = s.model → TextBinding.update_model s = s) ∧
    (∀ s : CheckState, (if s.widget then s.values.2 else s.values.1) = s.model →
      CheckBinding.update_model s = s) ∧
    (∀ s : SliderState, s.widget = s.model → SliderBinding.update_model s = s) ∧
    (∀ s : DateTimeState, s.widget = s.model → DateTimeBinding.update_model s = s) ∧
    (∀ s : DateState, s.model = some s.widget → DateBinding.update_model s = s) ∧
    (∀ (s : FileState) (path : String),
      (FileBinding.update_model s path).modelWrites = s.modelWrites ++ [path] ∧
      (path = s.model → (FileBinding.update_model s path).model = s.model)) := by
  refine ⟨fun s h => ?_, fun s h => ?_, fun s h => ?_, fun s h => ?_, fun s h => ?_,
    fun s path => ⟨rfl, fun h => ?_⟩⟩
  · simp [TextBinding.update_model, h]
  · simp [CheckBinding.update_model, h]
  · simp [SliderBinding.update_model, h]
  · simp [DateTimeBinding.update_model, h]
  · simp [DateBinding.update_model, h]
  · simp [FileBinding.update_model, h]

/-- Witness for C1 at concrete states whose widget and model values
agree. -/
theorem C1_witness :
    TextBinding.update_model ⟨"a", "a", [], []⟩ = ⟨"a", "a", [], []⟩ ∧
    CheckBinding.update_model ⟨true, ("n", "y"), "y", [], []⟩ =
      ⟨true, ("n", "y"), "y", [], []⟩ ∧
    SliderBinding.update_model ⟨5, 5, [], []⟩ = ⟨5, 5, [], []⟩ ∧
    DateTimeBinding.update_model ⟨7, true, 7, []⟩ = ⟨7, true, 7, []⟩ ∧
    DateBinding.update_model ⟨3, some 3, [], []⟩ = ⟨3, some 3, [], []⟩ ∧
    (FileBinding.update_model ⟨"p", "p", []⟩ "p").modelWrites = [] ++ ["p"] ∧
    (FileBinding.update_model ⟨"p", "p", []⟩ "p").model = "p" :=
  ⟨C1_no_redundant_model_write.1 _ rfl,
   C1_no_redundant_model_write.2.1 _ rfl,
   C1_no_redundant_model_write.2.2.1 _ rfl,
   C1_no_redundant_model_write.2.2.2.1 _ rfl,
   C1_no_redundant_model_write.2.2.2.2.1 _ rfl,
   (C1_no_redundant_model_write.2.2.2.2.2 _ "p").1,
   (C1_no_redundant_model_write.2.2.2.2.2 _ "p").2 rfl⟩

/-- Claim C2, counterexample.  The claim says every scalar binding
eagerly syncs the widget from the model at construction; the file
binding constructor (interactive.py lines 226-228) only binds the change
event: constructed with the picker showing x while the model holds y,
the widget still shows x afterwards. -/
theorem C2_counterexample :
    (FileBinding.init { widget := "x", model := "y", modelWrites := [] }).widget = "x" ∧
    (FileBinding.init { widget := "x", model := "y", modelWrites := [] }).model = "y" :=
  ⟨rfl, rfl⟩

/-- Claim C2, amended: the text, check, slider and label binding
constructors immediately set the widget display from the current model
attribute value, before any event fires; the file binding constructor
performs no initial sync at all (the embedded state is unchanged). -/
theorem C2_eager_initial_sync :
    (∀ s : TextState, (TextBinding.init s).widget = s.model) ∧
    (∀ s : CheckState, (CheckBinding.init s).widget = (s.model == s.values.2)) ∧
    (∀ s : SliderState, (SliderBinding.init s).widget = s.model) ∧
    (∀ s : LabelState, (LabelBinding.init s).widget = s.model) ∧
    (∀ s : FileState, FileBinding.init s = s) := by
  refine ⟨fun s => ?_, fun s => rfl, fun s => ?_, fun s => rfl, fun s => rfl⟩
  · simp only [TextBinding.init, TextBinding.update_view]
    split
    · split <;> simp_all
    · simp_all
  · simp only [SliderBinding.init, SliderBinding.update_view]
    split <;> simp_all

/-- Claim C5, counterexample.  The claim says every scalar binding's
update_view skips a value the widget already displays; the label binding
(display.py lines 108-109) re-applies `SetLabel` unconditionally: with
the label already displaying v and the model holding v, a widget write
is still performed. -/
theorem C5_counterexample :
    (LabelBinding.update_view { widget := "v", model := "v", viewWrites := [] }).viewWrites
      ≠ [] := by decide

/-- Claim C5, amended: the text, slider and date bindings guard
update_view and leave the state untouched when the widget already shows
the value to apply; the label and check bindings re-apply the display
value unconditionally (a widget write is logged on every call). -/
theorem C5_no_redundant_view_write :
    (∀ (s : TextState) (new : String), s.widget = new →
      TextBinding.update_view s new = s) ∧
    (∀ (s : SliderState) (new : Int), s.widget = new →
      SliderBinding.update_view s new = s) ∧
    (∀ (s : DateState) (new : Int), s.widget = new →
      DateBinding.update_view s new = s) ∧
    (∀ s : LabelState,
      (LabelBinding.update_view s).viewWrites = s.viewWrites ++ [s.model]) ∧
    (∀ (s : CheckState) (new : String),
      (CheckBinding.update_view s new).viewWrites = s.viewWrites ++ [new == s.values.2]) := by
  refine ⟨fun s new h => ?_, fun s new h => ?_, fun s new h => ?_,
    fun s => rfl, fun s new => rfl⟩
  · simp [TextBinding.update_view, h]
  · simp [SliderBinding.update_view, h]
  · simp [DateBinding.update_view, h]

/-- Witness for C5 at concrete states; the guarded bindings skip, the
unguarded ones log a write. -/
theorem C5_witness :
    TextBinding.update_view ⟨"a", "b", [], []⟩ "a" = ⟨"a", "b", [], []⟩ ∧
    SliderBinding.update_view ⟨2, 9, [], []⟩ 2 = ⟨2, 9, [], []⟩ ∧
    DateBinding.update_view ⟨4, none, [], []⟩ 4 = ⟨4, none, [], []⟩ ∧
    (LabelBinding.update_view ⟨"v", "v", []⟩).viewWrites = [] ++ ["v"] ∧
    (CheckBinding.update_view ⟨false, ("n", "y"), "n", [], []⟩ "y").viewWrites =
      [] ++ [("y" : String) == "y"] :=
  ⟨C5_no_redundant_view_write.1 _ _ rfl,
   C5_no_redundant_view_write.2.1 _ _ rfl,
   C5_no_redundant_view_write.2.2.1 _ _ rfl,
   C5_no_redundant_view_write.2.2.2.1 _,
   C5_no_redundant_view_write.2.2.2.2 _ _⟩

/-- Claim C9: the date binding constructor forces the model attribute to
a non-null value — after construction the attribute holds the old value
when one was present and the current clock reading otherwise, so the
spinner is never shown a null. -/
theorem C9_date_init_forces_value :
    ∀ (now : Int) (s : DateState),
      ((DateBinding.init now s).model).isSome = true ∧
      (DateBinding.init now s).model = some (s.model.getD now) :=
  fun _ _ => ⟨rfl, rfl⟩

/-- Claim C8: with a non-empty choice set, `update_view` on a model
value that is absent from the current choice keys leaves the whole
binding state untouched (in particular the prior selection), and raises
no error (the `ValueError` from `list.index` is caught and the function
returns normally, which the total Lean embedding makes explicit). -/
theorem C8_absent_value_keeps_selection :
    ∀ (s : ChoiceState) (new : String),
      s.choices ≠ [] → new ∉ ChoiceBinding.keys s.choices →
      ChoiceBinding.update_view s new = s := by
  intro s new hne hmem
  unfold ChoiceBinding.update_view
  rw [if_neg (by simpa [List.length_eq_zero] using hne),
    pyListIndex_eq_none _ _ hmem]

/-- Witness for C8: two choices, a prior selection of 1, and the absent
model value z. -/
theorem C8_witness :
    ChoiceBinding.update_view ⟨[("a", "A"), ("b", "B")], ["A", "B"], 1, "z", []⟩ "z" =
      ⟨[("a", "A"), ("b", "B")], ["A", "B"], 1, "z", []⟩ :=
  C8_absent_value_keeps_selection _ _ (by decide) (by decide)

/-- Claim C10: constructing a choice binding is not purely view-side.
The static-choices constructor ends with an `update_model(None)` call,
so when the model value is absent from the keys (the view sync then
leaves the widget selection where the item rebuild put it, `selAfter`)
and that selection is in range and maps to a key different from the
model value, construction itself writes that key to the model
attribute. -/
theorem C10_construction_writes_model :
    ∀ (choices : List (String × String)) (s : ChoiceState) (selAfter : Int),
      choices ≠ [] →
      s.model ∉ ChoiceBinding.keys choices →
      0 ≤ selAfter → selAfter < ((ChoiceBinding.keys choices).length : Int) →
      (ChoiceBinding.keys choices).getD selAfter.toNat "" ≠ s.model →
      (ChoiceBinding.init_static choices s selAfter).model =
        (ChoiceBinding.keys choices).getD selAfter.toNat "" ∧
      (ChoiceBinding.init_static choices s selAfter).modelWrites =
        s.modelWrites ++ [(ChoiceBinding.keys choices).getD selAfter.toNat ""] := by
  intro choices s selAfter h0 hmem h1 h2 h3
  simp only [ChoiceBinding.init_static, ChoiceBinding.update_choices]
  rw [C8_absent_value_keeps_selection _ _ (by simpa using h0) (by simpa using hmem)]
  unfold ChoiceBinding.update_model
  rw [if_pos ⟨h1, by simpa using h2⟩, if_pos (fun hc => h3 hc.symm)]
  exact ⟨rfl, rfl⟩

/-- Witness for C10: keys a and b, model value z absent from the keys,
and the widget reporting selection 0 after the item rebuild;
construction writes the key a to the model. -/
theorem C10_witness :
    (ChoiceBinding.init_static [("a", "A"), ("b", "B")]
      ⟨[], [], -1, "z", []⟩ 0).model = "a" ∧
    (ChoiceBinding.init_static [("a", "A"), ("b", "B")]
      ⟨[], [], -1, "z", []⟩ 0).modelWrites = ["a"] := by
  have h := C10_construction_writes_model [("a", "A"), ("b", "B")]
    ⟨[], [], -1, "z", []⟩ 0 (by decide) (by decide) (by decide) (by decide) (by decide)
  exact ⟨h.1.trans rfl, h.2.trans rfl⟩

/-- Claim C4, counterexample.  The claim says a change of the dynamic
choice source re-applies `update_model` once so the model is
resynchronized from the widget selection.  With the choice set replaced
by the single pair (b, B), the model holding a and the widget reporting
selection 0 on the new item list, the change handler leaves the model at
a and performs no model write, while one `update_model` application
would have resynchronized the model to b. -/
theorem C4_counterexample :
    (ChoiceBinding.on_choices_changed ⟨[("a", "A")], ["A"], 0, "a", []⟩
      [("b", "B")] 0).model = "a" ∧
    (ChoiceBinding.on_choices_changed ⟨[("a", "A")], ["A"], 0, "a", []⟩
      [("b", "B")] 0).modelWrites = [] ∧
    (ChoiceBinding.update_model (ChoiceBinding.on_choices_changed
      ⟨[("a", "A")], ["A"], 0, "a", []⟩ [("b", "B")] 0)).model = "b" := by
  refine ⟨rfl, rfl, by decide⟩

/-- Claim C4, amended: when the source attribute holding the choice set
changes, the subscription handler stores the new choice set and rebuilds
the widget item list from it, but does not re-apply `update_model`: the
model attribute and the model write log are unchanged.  `update_model`
is applied once only, during construction. -/
theorem C4_dynamic_rebuild_no_resync :
    ∀ (s : ChoiceState) (newChoices : List (String × String)) (selAfter : Int),
      (ChoiceBinding.on_choices_changed s newChoices selAfter).choices = newChoices ∧
      (ChoiceBinding.on_choices_changed s newChoices selAfter).items =
        ChoiceBinding.vals newChoices ∧
      (ChoiceBinding.on_choices_changed s newChoices selAfter).model = s.model ∧
      (ChoiceBinding.on_choices_changed s newChoices selAfter).modelWrites =
        s.modelWrites :=
  fun _ _ _ => ⟨rfl, rfl, rfl, rfl⟩

/-- Claim C3: with `commit_on = 'row'`, a cursor-move gesture (the
select-cell event plus the deferred re-dispatch scheduled when an edit
control had to be closed first) never invokes `SaveRow` when source and
target cell are in the same row; moving to a different row invokes
`SaveRow` exactly once for the row being left, and when that `SaveRow`
fails the move is vetoed and the cursor stays on the original cell. -/
theorem C3_commit_on_row_gesture :
    ∀ (saveCell : Nat → Nat → Bool) (saveRow : Nat → Bool) (saveCol : Nat → Bool)
      (s : GridState) (toRow toCol : Nat),
      s.vetoNext = false →
      ((s.cursorRow = toRow →
        (GridBinding.select_gesture "row" saveCell saveRow saveCol s toRow toCol).saveRowCalls
          = [] ∧
        (GridBinding.select_gesture "row" saveCell saveRow saveCol s toRow toCol).state.cursorRow
          = toRow ∧
        (GridBinding.select_gesture "row" saveCell saveRow saveCol s toRow toCol).state.cursorCol
          = toCol) ∧
      (s.cursorRow ≠ toRow →
        (GridBinding.select_gesture "row" saveCell saveRow saveCol s toRow toCol).saveRowCalls
          = [s.cursorRow] ∧
        (saveRow s.cursorRow = true →
          (GridBinding.select_gesture "row" saveCell saveRow saveCol s toRow toCol).state.cursorRow
            = toRow ∧
          (GridBinding.select_gesture "row" saveCell saveRow saveCol s toRow toCol).state.cursorCol
            = toCol) ∧
        (saveRow s.cursorRow = false →
          (GridBinding.select_gesture "row" saveCell saveRow saveCol s toRow toCol).vetoed
            = true ∧
          (GridBinding.select_gesture "row" saveCell saveRow saveCol s toRow toCol).state.cursorRow
            = s.cursorRow ∧
          (GridBinding.select_gesture "row" saveCell saveRow saveCol s toRow toCol).state.cursorCol
            = s.cursorCol))) := by
  intro saveCell saveRow saveCol s toRow toCol hveto
  obtain ⟨cr, cc, ee, vn⟩ := s
  simp only at hveto
  subst hveto
  constructor
  · intro hrow
    subst hrow
    cases ee <;>
      simp [GridBinding.select_gesture, GridBinding.on_select_cell,
        GridBinding.do_select_cell]
  · intro hrow
    cases ee <;> cases hsave : saveRow cr <;>
      simp [GridBinding.select_gesture, GridBinding.on_select_cell,
        GridBinding.do_select_cell, hrow, hsave]

/-- Witness for C3: from cell (0, 0), moving to (1, 2) with a rejecting
`SaveRow` calls it once for row 0, vetoes and keeps the cursor at
(0, 0); moving within row 0 to column 7 calls `SaveRow` never. -/
theorem C3_witness :
    (GridBinding.select_gesture "row" (fun _ _ => true) (fun _ => false) (fun _ => true)
      ⟨0, 0, false, false⟩ 1 2).saveRowCalls = [0] ∧
    (GridBinding.select_gesture "row" (fun _ _ => true) (fun _ => false) (fun _ => true)
      ⟨0, 0, false, false⟩ 1 2).vetoed = true ∧
    (GridBinding.select_gesture "row" (fun _ _ => true) (fun _ => false) (fun _ => true)
      ⟨0, 0, false, false⟩ 1 2).state.cursorRow = 0 ∧
    (GridBinding.select_gesture "row" (fun _ _ => true) (fun _ => false) (fun _ => true)
      ⟨0, 0, false, false⟩ 1 2).state.cursorCol = 0 ∧
    (GridBinding.select_gesture "row" (fun _ _ => true) (fun _ => true) (fun _ => true)
      ⟨0, 5, true, false⟩ 0 7).saveRowCalls = [] ∧
    (GridBinding.select_gesture "row" (fun _ _ => true) (fun _ => true) (fun _ => true)
      ⟨0, 5, true, false⟩ 0 7).state.cursorCol = 7 := by
  have h1 := (C3_commit_on_row_gesture (fun _ _ => true) (fun _ => false) (fun _ => true)
    ⟨0, 0, false, false⟩ 1 2 rfl).2 (by decide)
  have h2 := (C3_commit_on_row_gesture (fun _ _ => true) (fun _ => true) (fun _ => true)
    ⟨0, 5, true, false⟩ 0 7 rfl).1 rfl
  exact ⟨h1.1, (h1.2.2 rfl).1, (h1.2.2 rfl).2.1, (h1.2.2 rfl).2.2, h2.1, h2.2.2⟩

/-- Claim C6, counterexample.  The claim says enter on the last row
appends one row and then moves the active cell to column 0 of the newly
created row; but `SetGridCursor` goes through the vetoable select-cell
event, and with `commit_on = 'row'` the departed row is saved before
the move (grid2.py lines 103-105).  In a 3-row grid with the cursor at
(2, 1), an open edit control and a rejecting `SaveRow`, enter appends
the row (the count becomes 4) yet the move is vetoed and the cursor
stays at (2, 1) instead of reaching (3, 0). -/
theorem C6_counterexample :
    (GridBinding.on_key_down_return "row" (fun _ _ => true) (fun _ => false)
      (fun _ => true) ⟨2, 1, true, false⟩ 3).2 = 4 ∧
    (GridBinding.on_key_down_return "row" (fun _ _ => true) (fun _ => false)
      (fun _ => true) ⟨2, 1, true, false⟩ 3).1.vetoed = true ∧
    (GridBinding.on_key_down_return "row" (fun _ _ => true) (fun _ => false)
      (fun _ => true) ⟨2, 1, true, false⟩ 3).1.state.cursorRow = 2 ∧
    (GridBinding.on_key_down_return "row" (fun _ _ => true) (fun _ => false)
      (fun _ => true) ⟨2, 1, true, false⟩ 3).1.state.cursorCol = 1 := by
  decide

/-- Claim C6, amended: with `commit_on = 'row'` and a clear
`veto_next_select_cell` flag, pressing enter or return while the active
cell is on the last row disables the cell edit control and appends
exactly one row to the row store; the move of the active cell to column
0 of the newly created row (the appended row has index equal to the old
row count) is then requested through the vetoable select-cell event,
which saves the departed row exactly once: when that `SaveRow` succeeds
the active cell lands on column 0 of the new row, and when it fails the
move is vetoed and the cursor remains on the original cell. -/
theorem C6_enter_appends_row :
    ∀ (saveCell : Nat → Nat → Bool) (saveRow : Nat → Bool) (saveCol : Nat → Bool)
      (s : GridState) (numRows : Nat),
      s.vetoNext = false → 0 < numRows → s.cursorRow = numRows - 1 →
      (GridBinding.on_key_down_return "row" saveCell saveRow saveCol s numRows).2
        = numRows + 1 ∧
      (GridBinding.on_key_down_return "row" saveCell saveRow saveCol s
        numRows).1.state.editEnabled = false ∧
      (GridBinding.on_key_down_return "row" saveCell saveRow saveCol s
        numRows).1.saveRowCalls = [s.cursorRow] ∧
      (saveRow s.cursorRow = true →
        (GridBinding.on_key_down_return "row" saveCell saveRow saveCol s
          numRows).1.state.cursorRow = numRows ∧
        (GridBinding.on_key_down_return "row" saveCell saveRow saveCol s
          numRows).1.state.cursorCol = 0) ∧
      (saveRow s.cursorRow = false →
        (GridBinding.on_key_down_return "row" saveCell saveRow saveCol s
          numRows).1.vetoed = true ∧
        (GridBinding.on_key_down_return "row" saveCell saveRow saveCol s
          numRows).1.state.cursorRow = s.cursorRow ∧
        (GridBinding.on_key_down_return "row" saveCell saveRow saveCol s
          numRows).1.state.cursorCol = s.cursorCol) := by
  intro saveCell saveRow saveCol s numRows hv hn hr
  obtain ⟨cr, cc, ee, vn⟩ := s
  simp only at hv hr
  subst hv
  subst hr
  have hne : numRows - 1 ≠ numRows - 1 + 1 :=
    Nat.ne_of_lt (Nat.lt_succ_self (numRows - 1))
  cases hsave : saveRow (numRows - 1) <;>
    simp [GridBinding.on_key_down_return, GridBinding.select_gesture,
      GridBinding.on_select_cell, GridBinding.do_select_cell, hsave, hne]
  omega

/-- Witness for C6: a 3-row grid, cursor on the last row at (2, 1), an
open edit control and an accepting `SaveRow`; enter appends one row
(count 4), saves row 2 once, and the cursor lands on (3, 0), column 0
of the newly created row. -/
theorem C6_witness :
    (GridBinding.on_key_down_return "row" (fun _ _ => true) (fun _ => true)
      (fun _ => true) ⟨2, 1, true, false⟩ 3).2 = 3 + 1 ∧
    (GridBinding.on_key_down_return "row" (fun _ _ => true) (fun _ => true)
      (fun _ => true) ⟨2, 1, true, false⟩ 3).1.state.editEnabled = false ∧
    (GridBinding.on_key_down_return "row" (fun _ _ => true) (fun _ => true)
      (fun _ => true) ⟨2, 1, true, false⟩ 3).1.saveRowCalls = [2] ∧
    (GridBinding.on_key_down_return "row" (fun _ _ => true) (fun _ => true)
      (fun _ => true) ⟨2, 1, true, false⟩ 3).1.state.cursorRow = 3 ∧
    (GridBinding.on_key_down_return "row" (fun _ _ => true) (fun _ => true)
      (fun _ => true) ⟨2, 1, true, false⟩ 3).1.state.cursorCol = 0 := by
  have h := C6_enter_appends_row (fun _ _ => true) (fun _ => true) (fun _ => true)
    ⟨2, 1, true, false⟩ 3 rfl (by decide) rfl
  exact ⟨h.1, h.2.1, h.2.2.1, (h.2.2.2.1 rfl).1, (h.2.2.2.1 rfl).2⟩

/-- Claim C7: the model-to-widget selection sync of the list binding
deselects exactly the current-minus-target indices, selects exactly the
target-minus-current indices, touches no index in the intersection, and
the resulting widget selection is exactly the target set. -/
theorem C7_minimal_selection_sync :
    ∀ cur tgt : Finset ℕ,
      (ListBinding.on_selection_update_model cur tgt).deselected = cur \ tgt ∧
      (ListBinding.on_selection_update_model cur tgt).selected = tgt \ cur ∧
      (∀ i ∈ cur ∩ tgt,
        i ∉ (ListBinding.on_selection_update_model cur tgt).deselected ∧
        i ∉ (ListBinding.on_selection_update_model cur tgt).selected) ∧
      (ListBinding.on_selection_update_model cur tgt).widgetSelection = tgt := by
  intro cur tgt
  refine ⟨rfl, rfl, ?_, ?_⟩
  · intro i hi
    rw [Finset.mem_inter] at hi
    constructor <;>
      simp [ListBinding.on_selection_update_model, Finset.mem_sdiff, hi.1, hi.2]
  · show cur \ (cur \ tgt) ∪ tgt \ cur = tgt
    rw [Finset.sdiff_sdiff_self_left, Finset.inter_comm, Finset.union_comm,
      Finset.sdiff_union_inter]

/-- Witness for C7 at the selection sets of the specification example:
widget selection 1 and 3, target 3 and 5; exactly 1 is deselected,
exactly 5 selected, 3 untouched. -/
theorem C7_witness :
    (ListBinding.on_selection_update_model {1, 3} {3, 5}).deselected = {1} ∧
    (ListBinding.on_selection_update_model {1, 3} {3, 5}).selected = {5} ∧
    3 ∉ (ListBinding.on_selection_update_model {1, 3} {3, 5}).deselected ∧
    3 ∉ (ListBinding.on_selection_update_model {1, 3} {3, 5}).selected ∧
    (ListBinding.on_selection_update_model {1, 3} {3, 5}).widgetSelection = {3, 5} := by
  have h := C7_minimal_selection_sync {1, 3} {3, 5}
  exact ⟨h.1.trans (by decide), h.2.1.trans (by decide),
    (h.2.2.1 3 (by decide)).1, (h.2.2.1 3 (by decide)).2, h.2.2.2⟩
